import Mathlib

/-!
Verification development for the databricks-slack-bots repository.

The repository contains two Slack bot variants:
* `genie-slack-app` : `databricks_genie_client.py` (backend client with
  submit / poll / extract / feedback operations) and `slack_bot.py`
  (message orchestrator, table formatting, feedback handler);
* `endpoint-slack-app` : `slack_bot.py` (stateless chat-completion variant
  keeping a per-thread turn history).

Python code is shallowly embedded: dictionaries become structures with
`Option` fields, `None`-returning fallible calls become `Option`, the
polling loop becomes a fuel-indexed recursion (the fuel strictly exceeds
the greatest possible number of iterations whenever the poll interval is
at least one second), and the Slack send operations - which can raise -
are modelled by explicit success flags, with a raised send reaching the
handler's top-level `except` branch exactly as in the source.
-/

/-! ### Python string primitives

`str.strip()` with no argument removes leading and trailing whitespace;
the ASCII whitespace characters are modelled (` `, `\t`, `\n`, `\r`,
`\x0b`, `\x0c`), which are the ones occurring in the payloads handled
here.  Slicing `s[:n]`, `str.ljust`, `str.rjust` and `str.center` follow
CPython's semantics (`center` computes the left margin as
`marg // 2 + (marg & width & 1)`).
-/

def pyWs (c : Char) : Bool :=
  c = ' ' || c = '\t' || c = '\n' || c = '\r' || c = '\x0b' || c = '\x0c'

def pyStripL (l : List Char) : List Char :=
  ((l.dropWhile pyWs).reverse.dropWhile pyWs).reverse

/-- Model of Python `s.strip()`. -/
def pyStrip (s : String) : String := String.mk (pyStripL s.data)

/-- `n` spaces. -/
def spaces (n : Nat) : String := String.mk (List.replicate n ' ')

/-- Model of Python `s[:n]`. -/
def pySlice (s : String) (n : Nat) : String := String.mk (s.data.take n)

/-- Model of Python `s.ljust(w)`. -/
def pyLjust (s : String) (w : Nat) : String :=
  String.mk (s.data ++ List.replicate (w - s.data.length) ' ')

/-- Model of Python `s.rjust(w)`. -/
def pyRjust (s : String) (w : Nat) : String :=
  String.mk (List.replicate (w - s.data.length) ' ' ++ s.data)

/-- Model of Python `sep.join(items)`. -/
def pyJoin (sep : String) : List String → String
  | [] => ""
  | [a] => a
  | a :: b :: rest => a ++ sep ++ pyJoin sep (b :: rest)

/-- Model of Python `s.center(w)` (CPython `stringlib_center`). -/
def pyCenter (s : String) (w : Nat) : String :=
  if w ≤ s.data.length then s
  else
    let marg := w - s.data.length
    let left := marg / 2 + (if marg % 2 = 1 && w % 2 = 1 then 1 else 0)
    String.mk (List.replicate left ' ' ++ s.data ++ List.replicate (marg - left) ' ')

/-! ### Mention markup removal

`_clean_message_text` (identical in both bot variants) runs
`re.sub(r'<@[A-Z0-9]+>', '', text)` and then `text.strip()`.  Because the
character class excludes `>` the regex backtracks nowhere: a match at a
position is `<@`, a maximal nonempty run of class characters, then `>`.
`re.sub` scans left to right, skipping matches and advancing one
character otherwise; `removeMentionsFuel` mirrors that scan (the fuel is
the string length, an upper bound on the number of scan steps). -/

def isMentionChar (c : Char) : Bool :=
  ('A' ≤ c && c ≤ 'Z') || ('0' ≤ c && c ≤ '9')

/-- Given the characters after `<@`, return the remainder after a match
of `[A-Z0-9]+>` if there is one. -/
def mentionEnd (cs : List Char) : Option (List Char) :=
  match cs.takeWhile isMentionChar, cs.dropWhile isMentionChar with
  | [], _ => none
  | _ :: _, '>' :: tail => some tail
  | _ :: _, _ => none

/-- Remainder after a whole-regex match starting at the head, if any. -/
def mentionSkip (l : List Char) : Option (List Char) :=
  match l with
  | '<' :: '@' :: cs => mentionEnd cs
  | _ => none

def removeMentionsFuel : Nat → List Char → List Char
  | 0, l => l
  | _ + 1, [] => []
  | fuel + 1, c :: cs =>
    match mentionSkip (c :: cs) with
    | some tail => removeMentionsFuel fuel tail
    | none => c :: removeMentionsFuel fuel cs

/-- Model of `re.sub(r'<@[A-Z0-9]+>', '', ·)` over the character list. -/
def removeMentionsL (l : List Char) : List Char :=
  removeMentionsFuel l.length l

/-- `true` when the regex `<@[A-Z0-9]+>` matches somewhere in `l`. -/
def hasMentionL : List Char → Bool
  | [] => false
  | c :: cs => (mentionSkip (c :: cs)).isSome || hasMentionL cs

/-- `true` when the message text contains mention markup. -/
def hasMention (s : String) : Bool := hasMentionL s.data

/-- Model of `_clean_message_text` from both `slack_bot.py` variants:
remove bot mentions, then strip. -/
def cleanMessageText (s : String) : String :=
  pyStrip (String.mk (removeMentionsL s.data))

/-! ### Genie backend client (`databricks_genie_client.py`)

A `GenieMessage` models the message-status payload returned by
`get_message_status` / polled by `wait_for_response`:
* `status` : the payload's `status` field;
* `content` : the top-level `content` field;
* `attachments` : the `attachments` list;
* `query_result` : the raw `query_result` value (opaque here);
* `error_message` : the nested `error.message` value;
* `suggested_questions` : the `suggested_questions` list.

An attachment dict is dispatched on by `if "text" in attachment /
elif "query" in attachment`; the chart/table shapes used by
`_send_attachments` carry `type` / `url` / `title` / `data` keys instead,
so they fall through both tests.  A missing `content` / `description`
key maps to the empty string, matching `.get(..., "")`. -/

inductive GenieAttachment where
  | text (content : String)
  | query (description : String) (statement_id : Option String)
  | chart (title : String) (url : Option String)
  | table (rows : List (List (String × String)))
  | other
deriving DecidableEq, Repr

structure GenieMessage where
  status : Option String := none
  content : Option String := none
  attachments : List GenieAttachment := []
  query_result : Option String := none
  error_message : Option String := none
  suggested_questions : List String := []
deriving DecidableEq, Repr

/-- The statement-result payload assembled by `ask_question` from
`get_statement_result`: `data` is `statement_result["result"]` and
`schema` is `statement_result["manifest"]["schema"]`. -/
structure StatementData where
  data_array : List (List (Option String)) := []
  row_count : Option Nat := none
deriving DecidableEq, Repr

structure StatementSchema where
  columns : List (Option String) := []
deriving DecidableEq, Repr

structure ResultData where
  data : StatementData := {}
  schema : StatementSchema := {}
deriving DecidableEq, Repr

/-- The dict returned by `ask_question`. -/
structure AskResult where
  success : Bool := false
  conversation_id : Option String := none
  message_id : Option String := none
  response : String := ""
  attachments : List GenieAttachment := []
  query_result : Option String := none
  result_data : Option ResultData := none
  suggested_questions : List String := []
  error : Option String := none
deriving DecidableEq, Repr

/-- The response-text accumulation loop of `ask_question` (lines
322-340): text attachments contribute `content`, query attachments
contribute `description`, each only when nonempty (Python truthiness),
each followed by a blank line. -/
def responseStep (acc : String) (a : GenieAttachment) : String :=
  match a with
  | .text c => if c ≠ "" then acc ++ c ++ "\n\n" else acc
  | .query d _ => if d ≠ "" then acc ++ d ++ "\n\n" else acc
  | _ => acc

def buildResponseText (atts : List GenieAttachment) : String :=
  atts.foldl responseStep ""

/-- The `statement_id` left behind by the same loop: each query
attachment overwrites it with its own `statement_id` value (possibly
`None`). -/
def lastStatementId (atts : List GenieAttachment) : Option String :=
  atts.foldl (fun acc a =>
    match a with
    | .query _ sid => sid
    | _ => acc) none

/-- Display text extracted from a COMPLETED payload (lines 317-364):
attachment concatenation, fallback to `content` with the
`"No response generated"` default when the concatenation strips to
empty, and a final strip. -/
def extract_response_text (resp : GenieMessage) : String :=
  let t := buildResponseText resp.attachments
  let t2 := if pyStrip t = "" then resp.content.getD "No response generated" else t
  pyStrip t2

/-- Lines 309-376 of `ask_question`: the result built from a terminal
poll payload.  `fetchStatement` abstracts `get_statement_result`
composed with the `data` / `schema` repackaging; it is consulted only
when a query attachment left a truthy `statement_id`. -/
def extract_result (resp : GenieMessage) (conversation_id : Option String)
    (message_id : Option String) (fetchStatement : String → Option ResultData) :
    AskResult :=
  if resp.status = some "COMPLETED" then
    { success := true
      conversation_id := conversation_id
      message_id := message_id
      response := extract_response_text resp
      attachments := resp.attachments
      query_result := resp.query_result
      result_data := (lastStatementId resp.attachments).bind
        (fun sid => if sid = "" then none else fetchStatement sid)
      suggested_questions := resp.suggested_questions }
  else
    { success := false
      conversation_id := conversation_id
      error := some ("Query failed: " ++ resp.error_message.getD "Unknown error") }

/-! ### The polling loop `wait_for_response` (lines 214-254)

The loop body runs while `elapsed < max_wait_time`; each iteration
fetches the status (a fetch failure returns `None` at once), returns the
payload on a terminal status, and otherwise sleeps `poll_interval`
seconds.  With instantaneous fetches the elapsed time before iteration
`k` is `k * poll_interval`, and the number of sleeps performed equals
the iteration index, which the model returns alongside the result.  The
fuel `maxWait + 1` strictly exceeds the largest possible number of
iterations whenever `pollInterval ≥ 1` (each iteration advances the
clock by at least one second), so the fuel case is never taken in the
regime the source runs in. -/

def pollAux (fetch : Nat → Option GenieMessage) (maxWait pollInterval : Nat) :
    Nat → Nat → Option GenieMessage × Nat
  | 0, k => (none, k)
  | fuel + 1, k =>
    if k * pollInterval < maxWait then
      match fetch k with
      | none => (none, k)
      | some st =>
        if st.status = some "COMPLETED" then (some st, k)
        else if st.status = some "FAILED" ∨ st.status = some "CANCELLED" then (some st, k)
        else pollAux fetch maxWait pollInterval fuel (k + 1)
    else (none, k)

/-- Model of `wait_for_response` (defaults in the source:
`max_wait_time=60`, `poll_interval=2`).  First component: the returned
payload (`none` models Python `None`); second component: the number of
`time.sleep` calls performed. -/
def wait_for_response (fetch : Nat → Option GenieMessage)
    (maxWait pollInterval : Nat) : Option GenieMessage × Nat :=
  pollAux fetch maxWait pollInterval (maxWait + 1) 0

/-- A payload is non-terminal when its status is none of COMPLETED,
FAILED, CANCELLED. -/
def nonTerminal (st : GenieMessage) : Prop :=
  st.status ≠ some "COMPLETED" ∧ st.status ≠ some "FAILED" ∧ st.status ≠ some "CANCELLED"

/-! ### `_is_numeric`: Python `float(str(value))` acceptance

`_is_numeric` in `slack_bot.py` returns `True` exactly when
`float(str(value))` does not raise.  Cells are modelled by their `str`
image (`Option String`, `none` for `None`).  CPython's float grammar:
optional surrounding whitespace, an optional sign, then either a number
(`digitpart [. [digitpart]] | . digitpart`, with an optional
`(e|E) [sign] digitpart` exponent, where a digitpart is digits possibly
separated by single underscores) or one of `inf`, `infinity`, `nan`
case-insensitively. -/

/-- After an initial digit: consume further digits and single
underscores that are followed by a digit. -/
def digitTail : List Char → List Char
  | [] => []
  | '_' :: c :: rest => if c.isDigit then digitTail rest else '_' :: c :: rest
  | c :: rest => if c.isDigit then digitTail rest else c :: rest

/-- Consume a CPython digitpart (at least one digit); `none` when the
input does not start with a digit. -/
def digitPart (l : List Char) : Option (List Char) :=
  match l with
  | c :: rest => if c.isDigit then some (digitTail rest) else none
  | [] => none

/-- Consume an optional exponent (`e`/`E`, optional sign, digitpart). -/
def expoTail (l : List Char) : Option (List Char) :=
  match l with
  | 'e' :: rest =>
    (match rest with
     | '+' :: r2 => digitPart r2
     | '-' :: r2 => digitPart r2
     | _ => digitPart rest)
  | 'E' :: rest =>
    (match rest with
     | '+' :: r2 => digitPart r2
     | '-' :: r2 => digitPart r2
     | _ => digitPart rest)
  | _ => some l

/-- Consume an unsigned float literal body. -/
def floatMagnitude (l : List Char) : Option (List Char) :=
  match digitPart l with
  | some rest =>
    match rest with
    | '.' :: r2 =>
      (match digitPart r2 with
       | some r3 => expoTail r3
       | none => expoTail r2)
    | _ => expoTail rest
  | none =>
    match l with
    | '.' :: r2 =>
      (match digitPart r2 with
       | some r3 => expoTail r3
       | none => none)
    | _ => none

def charLower (c : Char) : Char :=
  if 'A' ≤ c && c ≤ 'Z' then Char.ofNat (c.toNat + 32) else c

/-- Case-insensitive literal match; the pattern is given lowercase. -/
def matchCI : List Char → List Char → Option (List Char)
  | [], l => some l
  | _ :: _, [] => none
  | p :: ps, c :: cs => if charLower c = p then matchCI ps cs else none

/-- `float(s)` acceptance. -/
def pyFloatAccepts (s : String) : Bool :=
  let l0 := pyStripL s.data
  let l := match l0 with
    | '+' :: rest => rest
    | '-' :: rest => rest
    | _ => l0
  (matchCI ['i', 'n', 'f', 'i', 'n', 'i', 't', 'y'] l == some []) ||
  (matchCI ['i', 'n', 'f'] l == some []) ||
  (matchCI ['n', 'a', 'n'] l == some []) ||
  (floatMagnitude l == some [])

/-! ### Table rendering (`_format_data_array`, `_send_query_results`)

A cell is `Option String`: `none` is SQL `NULL` (Python `None`), and the
string is `str(value)` otherwise. -/

/-- `str(row[i]) if row[i] is not None else ""`. -/
def cellStr (c : Option String) : String := c.getD ""

/-- `_is_numeric` on a cell value. -/
def is_numeric_cell (c : Option String) : Bool :=
  match c with
  | none => false
  | some s => pyFloatAccepts s

/-- Column type flag: `True` unless some non-null cell fails
`_is_numeric` (lines 506-512). -/
def colIsNumeric (rows : List (List (Option String))) (i : Nat) : Bool :=
  rows.all (fun r =>
    match r.getD i none with
    | none => true
    | some s => pyFloatAccepts s)

/-- Column width: header and cell lengths, plus 2 padding, capped at 30
(line 514). -/
def colWidth (names : List String) (rows : List (List (Option String))) (i : Nat) : Nat :=
  let maxW := rows.foldl (fun m r => max m (cellStr (r.getD i none)).length)
    (names.getD i "").length
  min (maxW + 2) 30

/-- One data cell (lines 536-546): truncate to the column width, strip,
then right-align when the column and the value are numeric, else
left-align. -/
def renderCell (v : Option String) (w : Nat) (colNum : Bool) : String :=
  let t := pyStrip (pySlice (cellStr v) w)
  if colNum && is_numeric_cell v then pyRjust t w else pyLjust t w

/-- One header cell (lines 521-524): truncate, strip, center. -/
def headerCell (name : String) (w : Nat) : String :=
  pyCenter (pyStrip (pySlice name w)) w

/-- Model of `_format_data_array` (lines 484-549). -/
def format_data_array (names : List String) (rows : List (List (Option String))) :
    String :=
  if rows = [] then "No data"
  else
    let widths := (List.range names.length).map (colWidth names rows)
    let types := (List.range names.length).map (colIsNumeric rows)
    let header := pyJoin "│" ((names.zip widths).map
      (fun p => headerCell p.1 p.2))
    let sep := pyJoin "┼" (widths.map
      (fun w => String.mk (List.replicate w '─')))
    let dataLines := rows.map (fun r =>
      pyJoin "│" (((r.zip widths).zip types).map
        (fun p => renderCell p.1.1 p.1.2 p.2)))
    pyJoin "\n" (header :: sep :: dataLines)

/-- `column_names` from the schema (line 272): `col.get("name", f"col_{i}")`. -/
def column_names_of (schema : StatementSchema) : List String :=
  schema.columns.enum.map (fun p => p.2.getD ("col_" ++ toString p.1))

/-- Model of `_send_query_results` (lines 250-291): the text of the
message it posts, `none` when it returns without posting.  `max_rows`
is 10 in the source; `row_count` defaults to the length of the full
data array. -/
def send_query_results_message (rd : ResultData) : Option String :=
  let data_array := rd.data.data_array
  let row_count := rd.data.row_count.getD data_array.length
  if data_array = [] then none
  else
    let column_names := column_names_of rd.schema
    let table_text := format_data_array column_names (data_array.take 10)
    let msg := "*Query Results:*\n```\n" ++ table_text ++ "\n```"
    some (if row_count > 10 then
      msg ++ "\n_Showing 10 of " ++ toString row_count ++ " rows_"
    else msg)

/-- The header line of `_format_data_array`'s output. -/
def tableHeaderLine (names : List String) (rows : List (List (Option String))) : String :=
  pyJoin "│" ((names.zip ((List.range names.length).map (colWidth names rows))).map
    (fun p => headerCell p.1 p.2))

/-- The separator line of `_format_data_array`'s output. -/
def tableSepLine (names : List String) (rows : List (List (Option String))) : String :=
  pyJoin "┼" (((List.range names.length).map (colWidth names rows)).map
    (fun w => String.mk (List.replicate w '─')))

/-- One data line of `_format_data_array`'s output. -/
def tableDataLine (names : List String) (rows : List (List (Option String)))
    (r : List (Option String)) : String :=
  pyJoin "│" (((r.zip ((List.range names.length).map (colWidth names rows))).zip
    ((List.range names.length).map (colIsNumeric rows))).map
    (fun p => renderCell p.1.1 p.1.2 p.2))

/-- An 11-row single-column statement result, used to witness the
row-truncation note. -/
def elevenRowResult : ResultData :=
  { data := { data_array := List.replicate 11 [some "1"] },
    schema := { columns := [some "id"] } }

/-! ### Remaining send helpers of the Genie bot -/

/-- `_format_table` (lines 561-589), used for `table`-typed attachments:
rows are dicts, headers are the first row's keys. -/
def format_table (data : List (List (String × String))) : String :=
  match data with
  | [] => "No data"
  | first :: _ =>
    let headers := first.map (fun p => p.1)
    let headerLine := pyJoin " | " headers
    let sep := String.mk (List.replicate headerLine.length '-')
    let rows := (data.take 10).map (fun row =>
      pyJoin " | " (headers.map (fun h => (row.lookup h).getD "")))
    let lines := headerLine :: sep :: rows
    let lines := if data.length > 10 then
      lines ++ ["... and " ++ toString (data.length - 10) ++ " more rows"]
    else lines
    pyJoin "\n" lines

/-- `_send_attachments` (lines 204-248): the texts of the messages it
posts (chart attachments with a url, nonempty table attachments); each
send has its own `try`, so a failure never aborts the others. -/
def attachmentMessages (atts : List GenieAttachment) : List String :=
  atts.filterMap (fun a =>
    match a with
    | .chart title url => url.map (fun u => "📊 *" ++ title ++ "*\n" ++ u)
    | .table rows => if rows = [] then none else
        some ("```" ++ format_table rows ++ "```")
    | _ => none)

/-- `_send_suggested_questions` (lines 293-319): numbered list. -/
def suggested_questions_message (qs : List String) : String :=
  "*💡 Suggested follow-up questions:*\n" ++
    String.join (qs.enum.map (fun p => toString (p.1 + 1) ++ ". " ++ p.2 ++ "\n"))

/-- `_format_response` (lines 184-202). -/
def format_response (result : AskResult) : String :=
  if result.success = false then "❌ " ++ result.error.getD "Unknown error"
  else if result.response = "" then "✅ Query executed successfully"
  else result.response

/-! ### Genie bot state and message orchestration (`_handle_message`)

State: `conversation_map : slack_thread_ts -> databricks_conversation_id`
and `message_feedback_map : message_ts -> (conversation_id, message_id)`,
both plain in-memory dicts, modelled as association lists with
overwriting update. -/

def mapSet {α : Type} (m : List (String × α)) (k : String) (v : α) :
    List (String × α) :=
  (k, v) :: m.filter (fun p => !(p.1 == k))

structure BotState where
  conversation_map : List (String × String) := []
  message_feedback_map : List (String × (String × String)) := []
deriving DecidableEq, Repr

/-- The inbound Slack event fields read by `_handle_message`
(`thread_ts` is the already-resolved `thread_ts or ts`). -/
structure SlackEvent where
  text : String := ""
  bot_id : Option String := none
  channel : String := ""
  thread_ts : String := ""
deriving DecidableEq, Repr

/-- Success flags for the Slack send calls of one orchestration pass.
`false` means the call raises (`slack_sdk` raises `SlackApiError` on an
API failure); sends inside helper functions with their own
`try`/`except` never propagate, and `feedbackButtonsTs` is the `ts` of
the delivered feedback-buttons message (`none` when the helper caught an
exception or the response had no `ts`). -/
structure SendBehavior where
  typingOk : Bool := true
  sayPromptOk : Bool := true
  sayAnswerOk : Bool := true
  resultsOk : Bool := true
  attachmentsOk : Bool := true
  suggestionsOk : Bool := true
  feedbackButtonsTs : Option String := none

/-- Observable outcome of one `_handle_message` call: final state, the
texts successfully delivered (in order, the generic apology excluded),
whether `ask_question` was invoked, and whether the top-level `except`
branch ran (sending the apology). -/
structure HandleOutcome where
  state : BotState
  sent : List String
  backendCalled : Bool
  apologized : Bool
deriving Repr

def prompt_message : String := "Please ask me a question about your data!"

def typing_message : String := "🤔 Thinking..."

def feedback_prompt_text : String := "Was this response helpful?"

/-- Model of `SlackGenieBot._handle_message` (lines 77-167).  `ask`
abstracts `genie_client.ask_question` (a total function: the Python
client returns a dict and does not raise).  An unhandled exception from
a send lands in the top-level `except`, which logs and sends the
apology; every state change made before the raise is kept. -/
def handle_message (st : BotState) (ev : SlackEvent)
    (ask : String → Option String → AskResult) (sb : SendBehavior) : HandleOutcome :=
  if ev.bot_id.isSome then
    { state := st, sent := [], backendCalled := false, apologized := false }
  else
    let text := cleanMessageText ev.text
    if text = "" then
      if sb.sayPromptOk then
        { state := st, sent := [prompt_message], backendCalled := false, apologized := false }
      else
        { state := st, sent := [], backendCalled := false, apologized := true }
    else if sb.typingOk = false then
      { state := st, sent := [], backendCalled := false, apologized := true }
    else
      let conversation_id := st.conversation_map.lookup ev.thread_ts
      let result := ask text conversation_id
      let st1 : BotState :=
        match result.conversation_id with
        | some cid =>
          { st with conversation_map := mapSet st.conversation_map ev.thread_ts cid }
        | none => st
      let response_text := format_response result
      if sb.sayAnswerOk = false then
        { state := st1, sent := [typing_message], backendCalled := true, apologized := true }
      else
        let sent2 := [typing_message, response_text]
        let sent3 := sent2 ++
          (match result.result_data with
           | some rd =>
             if rd.data.data_array ≠ [] ∧ sb.resultsOk then
               (send_query_results_message rd).toList
             else []
           | none => [])
        let sent4 := sent3 ++
          (if result.attachments ≠ [] ∧ sb.attachmentsOk then
            attachmentMessages result.attachments
          else [])
        let sent5 := sent4 ++
          (if result.suggested_questions ≠ [] ∧ sb.suggestionsOk then
            [suggested_questions_message result.suggested_questions]
          else [])
        if result.success then
          match result.conversation_id, result.message_id with
          | some cid, some mid =>
            (match sb.feedbackButtonsTs with
             | some ts =>
               let newMap := mapSet st1.message_feedback_map ts (cid, mid)
               { state := { st1 with message_feedback_map := newMap },
                 sent := sent5 ++ [feedback_prompt_text],
                 backendCalled := true, apologized := false }
             | none =>
               { state := st1, sent := sent5, backendCalled := true, apologized := false })
          | _, _ =>
            { state := st1, sent := sent5, backendCalled := true, apologized := false }
        else
          { state := st1, sent := sent5, backendCalled := true, apologized := false }

/-! ### Genie bot feedback handling (`_handle_feedback`, lines 381-482) -/

inductive FeedbackUpdate where
  | unavailable
  | thanks (rating : String)
  | failed
deriving DecidableEq, Repr

/-- Outcome of `_handle_feedback`: final state, the
`send_message_feedback` calls made (conversation, message, rating), and
the in-place update applied to the prompt message. -/
structure FeedbackOutcome where
  state : BotState
  backendCalls : List (String × String × String)
  update : Option FeedbackUpdate
deriving Repr

/-- Model of `_handle_feedback`.  `msg_ts` is `body.message.ts`
(optional), `feedbackOk` abstracts `send_message_feedback`'s boolean
result. -/
def handle_feedback (st : BotState) (msg_ts : Option String) (rating : String)
    (feedbackOk : String → String → String → Bool) : FeedbackOutcome :=
  let feedback_info := msg_ts.bind (fun ts => st.message_feedback_map.lookup ts)
  match feedback_info with
  | none =>
    { state := st, backendCalls := [], update := some .unavailable }
  | some (cid, mid) =>
    let ok := feedbackOk cid mid rating
    { state := st
      backendCalls := [(cid, mid, rating)]
      update := some (if ok then .thanks rating else .failed) }

/-! ### Endpoint-variant bot (`endpoint-slack-app/slack_bot.py`)

The stateless backend variant keeps, per thread, an ordered turn
history; `ask_question` receives the history and the handler appends a
user and an assistant turn on success. -/

structure Turn where
  role : String
  content : String
deriving DecidableEq, Repr

structure EndpointResult where
  success : Bool := false
  response : Option String := none
  error : Option String := none
  usage_total : Option Nat := none
  usage_prompt : Option Nat := none
  usage_completion : Option Nat := none
deriving DecidableEq, Repr

structure EndpointState where
  conversation_history : List (String × List Turn) := []
deriving DecidableEq, Repr

structure EndpointSendBehavior where
  typingOk : Bool := true
  sayPromptOk : Bool := true
  sayAnswerOk : Bool := true
  usageOk : Bool := true

structure EndpointOutcome where
  state : EndpointState
  sent : List String
  backendCalled : Bool
  apologized : Bool
deriving Repr

def historyOf (st : EndpointState) (ts : String) : List Turn :=
  (st.conversation_history.lookup ts).getD []

def endpoint_prompt_message : String := "Please ask me a question."

def endpoint_typing_message : String := "🤔 Pre-Sales Assistant is thinking..."

/-- `_format_response` of the endpoint variant (lines 150-166). -/
def endpoint_format_response (result : EndpointResult) : String :=
  if result.success = false then "❌ " ++ result.error.getD "Unknown error"
  else if result.response.getD "" = "" then "✅ Response generated successfully"
  else result.response.getD ""

/-- Truthiness of `usage.get("total_tokens")` (line 127 and line 190). -/
def usage_total_truthy (r : EndpointResult) : Bool := r.usage_total.getD 0 != 0

/-- `_send_usage_info` (lines 169-203): the usage text. -/
def usage_message (r : EndpointResult) : String :=
  let t := "_Tokens used: " ++ toString (r.usage_total.getD 0)
  let t2 := match r.usage_prompt, r.usage_completion with
    | some p, some c =>
      if p ≠ 0 ∧ c ≠ 0 then
        t ++ " (prompt: " ++ toString p ++ ", completion: " ++ toString c ++ ")"
      else t
    | _, _ => t
  t2 ++ "_"

/-- Model of `SlackModelServingBot._handle_message` (lines 65-132).
On success the handler appends the user turn and the assistant turn to
the thread's history before sending the answer (Python mutates the
looked-up list in place and re-stores it, which is the same map
update). -/
def endpoint_handle_message (st : EndpointState) (ev : SlackEvent)
    (ask : String → List Turn → EndpointResult) (sb : EndpointSendBehavior) :
    EndpointOutcome :=
  if ev.bot_id.isSome then
    { state := st, sent := [], backendCalled := false, apologized := false }
  else
    let text := cleanMessageText ev.text
    if text = "" then
      if sb.sayPromptOk then
        { state := st, sent := [endpoint_prompt_message], backendCalled := false,
          apologized := false }
      else
        { state := st, sent := [], backendCalled := false, apologized := true }
    else if sb.typingOk = false then
      { state := st, sent := [], backendCalled := false, apologized := true }
    else
      let hist := historyOf st ev.thread_ts
      let result := ask text hist
      let st1 : EndpointState :=
        if result.success then
          { conversation_history := mapSet st.conversation_history ev.thread_ts
              (hist ++ [{ role := "user", content := text },
                        { role := "assistant", content := result.response.getD "" }]) }
        else st
      let response_text := endpoint_format_response result
      if sb.sayAnswerOk = false then
        { state := st1, sent := [endpoint_typing_message], backendCalled := true,
          apologized := true }
      else
        let sent2 := [endpoint_typing_message, response_text]
        let sent3 := sent2 ++
          (if usage_total_truthy result && sb.usageOk then [usage_message result] else [])
        { state := st1, sent := sent3, backendCalled := true, apologized := false }

/-! ### Specification-side formulations

These definitions follow the wording of the specification (not the
source); they exist to be compared against the source-derived
definitions above. -/

/-- The concatenation of spec §4.1 `extractAnswer` read literally: "the
content of every `text`-kind attachment and the `description` field of
every `query`-kind attachment, each followed by a blank line". -/
def buildResponseTextSpecLit : List GenieAttachment → String
  | [] => ""
  | .text c :: rest => c ++ "\n\n" ++ buildResponseTextSpecLit rest
  | .query d _ :: rest => d ++ "\n\n" ++ buildResponseTextSpecLit rest
  | _ :: rest => buildResponseTextSpecLit rest

/-- Spec §4.1 `extractAnswer` display text, read literally, with the
fallback clause. -/
def extract_answer_spec_lit (resp : GenieMessage) : String :=
  let t := buildResponseTextSpecLit resp.attachments
  let t2 := if pyStrip t = "" then resp.content.getD "No response generated" else t
  pyStrip t2

/-- The same concatenation amended to skip empty contents and empty
descriptions (what the source's truthiness checks do). -/
def buildResponseTextSpec : List GenieAttachment → String
  | [] => ""
  | .text c :: rest =>
    (if c = "" then "" else c ++ "\n\n") ++ buildResponseTextSpec rest
  | .query d _ :: rest =>
    (if d = "" then "" else d ++ "\n\n") ++ buildResponseTextSpec rest
  | _ :: rest => buildResponseTextSpec rest

/-- C1 counterexample payload: an empty text attachment between two
nonempty ones. -/
def blankLinePayload : GenieMessage :=
  { status := some "COMPLETED",
    attachments := [.text "A", .text "", .text "B"] }

/-- The spec's example payload with a text and a query attachment. -/
def examplePayloadAB : GenieMessage :=
  { status := some "COMPLETED",
    attachments := [.text "A", .query "B" none] }

/-- The spec's example payload with no attachments and raw content. -/
def examplePayloadRaw : GenieMessage :=
  { status := some "COMPLETED", content := some "raw" }

/-- A fixed-width cell is right-aligned: all padding sits on the left. -/
def isRightAligned (s : String) : Prop := s = pyRjust (pyStrip s) s.data.length

/-- A fixed-width cell is left-aligned: all padding sits on the right. -/
def isLeftAligned (s : String) : Prop := s = pyLjust (pyStrip s) s.data.length

/-! ### Lemmas about stripping -/

theorem dropWhile_self {p : Char → Bool} (l : List Char) :
    (l.dropWhile p).dropWhile p = l.dropWhile p := by
  induction l with
  | nil => rfl
  | cons c cs ih =>
    by_cases h : p c
    · simp [List.dropWhile_cons, h, ih]
    · simp [List.dropWhile_cons, h]

theorem dropWhile_replicate_space (n : Nat) (l : List Char) :
    (List.replicate n ' ' ++ l).dropWhile pyWs = l.dropWhile pyWs := by
  induction n with
  | zero => rfl
  | succ n ih => simp [List.replicate_succ, List.dropWhile_cons, pyWs, ih]

theorem dropWhile_head_not {p : Char → Bool} (l : List Char) (c : Char)
    (h : (l.dropWhile p).head? = some c) : p c = false := by
  induction l with
  | nil => simp at h
  | cons a as ih =>
    by_cases hp : p a
    · exact ih (by simpa [List.dropWhile_cons, hp] using h)
    · simp only [List.dropWhile_cons, hp, Bool.false_eq_true, if_false] at h
      simp only [List.head?_cons, Option.some.injEq] at h
      subst h
      simpa using hp

theorem dropWhile_of_head_not {p : Char → Bool} (l : List Char)
    (h : ∀ c, l.head? = some c → p c = false) : l.dropWhile p = l := by
  cases l with
  | nil => rfl
  | cons c cs => simp [List.dropWhile_cons, h c rfl]

theorem pyStripL_idem (l : List Char) : pyStripL (pyStripL l) = pyStripL l := by
  unfold pyStripL
  set a := l.dropWhile pyWs with ha
  set b := a.reverse.dropWhile pyWs with hb
  have hstep1 : b.reverse.dropWhile pyWs = b.reverse := by
    apply dropWhile_of_head_not
    intro c hc
    rw [List.head?_reverse] at hc
    rcases hbe : b with _ | ⟨d, ds⟩
    · rw [hbe] at hc; simp at hc
    · obtain ⟨t, ht⟩ := List.dropWhile_suffix (l := a.reverse) pyWs
      rw [← hb] at ht
      have hLast : a.reverse.getLast? = some c := by
        rw [← ht, List.getLast?_append_of_ne_nil t (by rw [hbe]; simp)]
        exact hc
      rw [List.getLast?_reverse] at hLast
      exact dropWhile_head_not (p := pyWs) l c (by rw [← ha]; exact hLast)
  rw [hstep1, List.reverse_reverse, hb, dropWhile_self]

theorem length_pyStripL_le (l : List Char) : (pyStripL l).length ≤ l.length := by
  unfold pyStripL
  calc ((l.dropWhile pyWs).reverse.dropWhile pyWs).reverse.length
      = ((l.dropWhile pyWs).reverse.dropWhile pyWs).length := by rw [List.length_reverse]
    _ ≤ (l.dropWhile pyWs).reverse.length := (List.dropWhile_suffix pyWs).length_le
    _ = (l.dropWhile pyWs).length := by rw [List.length_reverse]
    _ ≤ l.length := (List.dropWhile_suffix pyWs).length_le

theorem dropWhile_replicate (n : Nat) :
    (List.replicate n ' ').dropWhile pyWs = ([] : List Char) := by
  have := dropWhile_replicate_space n ([] : List Char)
  simpa using this

theorem pyStripL_spaces_append (n : Nat) (l : List Char) :
    pyStripL (List.replicate n ' ' ++ l) = pyStripL l := by
  unfold pyStripL
  rw [dropWhile_replicate_space]

theorem pyStripL_append_spaces (l : List Char) (n : Nat) :
    pyStripL (l ++ List.replicate n ' ') = pyStripL l := by
  unfold pyStripL
  rw [List.dropWhile_append]
  by_cases hemp : (l.dropWhile pyWs).isEmpty = true
  · rw [if_pos hemp, dropWhile_replicate]
    rw [List.isEmpty_iff] at hemp
    rw [hemp]
  · rw [if_neg hemp, List.reverse_append, List.reverse_replicate,
      dropWhile_replicate_space]

/-! ### Lemmas about mention removal -/

theorem mentionEnd_append (cs l2 tail : List Char)
    (h : mentionEnd cs = some tail) : mentionEnd (cs ++ l2) = some (tail ++ l2) := by
  rcases htk : cs.takeWhile isMentionChar with _ | ⟨a, as⟩
  · unfold mentionEnd at h; rw [htk] at h; simp at h
  · rcases hdp : cs.dropWhile isMentionChar with _ | ⟨d, ds⟩
    · unfold mentionEnd at h; rw [htk, hdp] at h; simp at h
    · by_cases hd : d = '>'
      · subst hd
        unfold mentionEnd at h
        rw [htk, hdp] at h
        simp only [Option.some.injEq] at h
        subst h
        have hlen : (cs.takeWhile isMentionChar).length ≠ cs.length := by
          intro hcontra
          have hfull := List.takeWhile_append_dropWhile isMentionChar cs
          have hzero : (cs.dropWhile isMentionChar).length = 0 := by
            have hlen2 := congrArg List.length hfull
            rw [List.length_append] at hlen2
            omega
          rw [hdp] at hzero
          simp at hzero
        have htk2 : (cs ++ l2).takeWhile isMentionChar = a :: as := by
          rw [List.takeWhile_append, if_neg hlen, htk]
        have hdp2 : (cs ++ l2).dropWhile isMentionChar = '>' :: (ds ++ l2) := by
          rw [List.dropWhile_append, if_neg (by rw [hdp]; simp), hdp]
          simp
        unfold mentionEnd
        rw [htk2, hdp2]
        rfl
      · exfalso
        unfold mentionEnd at h
        rw [htk, hdp] at h
        split at h
        · simp_all
        · rename_i heq1 heq2
          rw [List.cons.injEq] at heq2
          exact hd heq2.1
        · exact absurd h (by simp)

theorem mentionSkip_append (l l2 tail : List Char)
    (h : mentionSkip l = some tail) : mentionSkip (l ++ l2) = some (tail ++ l2) := by
  rcases l with _ | ⟨c, rest⟩
  · simp [mentionSkip] at h
  · rcases rest with _ | ⟨c2, cs⟩
    · unfold mentionSkip at h
      split at h
      · case _ heq => exact absurd heq (by simp)
      · exact absurd h (by simp)
    · by_cases hc : c = '<'
      · by_cases hc2 : c2 = '@'
        · subst hc; subst hc2
          have hend : mentionEnd cs = some tail := h
          show mentionSkip ('<' :: '@' :: (cs ++ l2)) = some (tail ++ l2)
          exact mentionEnd_append cs l2 tail hend
        · exfalso
          subst hc
          unfold mentionSkip at h
          split at h
          · case _ heq =>
              rw [List.cons.injEq, List.cons.injEq] at heq
              exact hc2 heq.2.1
          · exact absurd h (by simp)
      · exfalso
        unfold mentionSkip at h
        split at h
        · case _ heq =>
            rw [List.cons.injEq] at heq
            exact hc heq.1
        · exact absurd h (by simp)

theorem hasMentionL_of_left (l1 l2 : List Char)
    (h : hasMentionL l1 = true) : hasMentionL (l1 ++ l2) = true := by
  induction l1 with
  | nil => simp [hasMentionL] at h
  | cons c cs ih =>
    rw [hasMentionL, Bool.or_eq_true] at h
    rcases h with h | h
    · rw [Option.isSome_iff_exists] at h
      obtain ⟨tail, htail⟩ := h
      have hsk := mentionSkip_append (c :: cs) l2 tail htail
      rw [List.cons_append] at hsk
      rw [List.cons_append, hasMentionL, Bool.or_eq_true]
      left
      rw [hsk]
      rfl
    · rw [List.cons_append, hasMentionL, Bool.or_eq_true]
      right
      exact ih h

theorem hasMentionL_append_left (l1 l2 : List Char)
    (h : hasMentionL (l1 ++ l2) = false) : hasMentionL l2 = false := by
  induction l1 with
  | nil => exact h
  | cons c cs ih =>
    apply ih
    rw [List.cons_append, hasMentionL, Bool.or_eq_false_iff] at h
    exact h.2

theorem hasMentionL_append_right (l1 l2 : List Char)
    (h : hasMentionL (l1 ++ l2) = false) : hasMentionL l1 = false := by
  by_contra hcon
  rw [Bool.not_eq_false] at hcon
  rw [hasMentionL_of_left l1 l2 hcon] at h
  exact absurd h (by simp)

theorem hasMentionL_pyStripL (l : List Char)
    (h : hasMentionL l = false) : hasMentionL (pyStripL l) = false := by
  obtain ⟨t1, ht1⟩ := List.dropWhile_suffix (l := l) pyWs
  have hA : hasMentionL (l.dropWhile pyWs) = false :=
    hasMentionL_append_left t1 _ (by rw [ht1]; exact h)
  obtain ⟨t2, ht2⟩ := List.dropWhile_suffix (l := (l.dropWhile pyWs).reverse) pyWs
  have hsplit : pyStripL l ++ t2.reverse = l.dropWhile pyWs := by
    have h3 := congrArg List.reverse ht2
    rw [List.reverse_append, List.reverse_reverse] at h3
    exact h3
  have hA2 : hasMentionL (pyStripL l ++ t2.reverse) = false := by
    rw [hsplit]; exact hA
  exact hasMentionL_append_right _ _ hA2

theorem removeMentionsFuel_of_no_mention (fuel : Nat) (l : List Char)
    (h : hasMentionL l = false) : removeMentionsFuel fuel l = l := by
  induction fuel generalizing l with
  | zero => rfl
  | succ fuel ih =>
    cases l with
    | nil => rfl
    | cons c cs =>
      rw [hasMentionL, Bool.or_eq_false_iff] at h
      have hskip : mentionSkip (c :: cs) = none := by
        rcases hs : mentionSkip (c :: cs) with _ | t
        · rfl
        · exfalso; rw [hs] at h; exact absurd h.1 (by simp)
      rw [removeMentionsFuel, hskip]
      rw [ih cs h.2]

theorem removeMentionsL_of_no_mention (l : List Char)
    (h : hasMentionL l = false) : removeMentionsL l = l :=
  removeMentionsFuel_of_no_mention l.length l h

/-! ### Polling loop lemmas -/

theorem pollAux_step (fetch : Nat → Option GenieMessage) (mw p fuel k : Nat)
    (st : GenieMessage) (hlt : k * p < mw) (hf : fetch k = some st)
    (hnt : nonTerminal st) :
    pollAux fetch mw p (fuel + 1) k = pollAux fetch mw p fuel (k + 1) := by
  obtain ⟨h1, h2, h3⟩ := hnt
  rw [pollAux, if_pos hlt, hf]
  dsimp only
  rw [if_neg h1, if_neg (by intro hc; rcases hc with hc | hc; exact h2 hc; exact h3 hc)]

theorem pollAux_completed (fetch : Nat → Option GenieMessage) (mw p fuel k : Nat)
    (st : GenieMessage) (hlt : k * p < mw) (hf : fetch k = some st)
    (hs : st.status = some "COMPLETED") :
    pollAux fetch mw p (fuel + 1) k = (some st, k) := by
  rw [pollAux, if_pos hlt, hf]
  dsimp only
  rw [if_pos hs]

theorem pollAux_fetch_fail (fetch : Nat → Option GenieMessage) (mw p fuel k : Nat)
    (hlt : k * p < mw) (hf : fetch k = none) :
    pollAux fetch mw p (fuel + 1) k = (none, k) := by
  rw [pollAux, if_pos hlt, hf]

theorem pollAux_none_of_all_nonterminal (fetch : Nat → Option GenieMessage)
    (mw p : Nat) (hall : ∀ k, ∃ st, fetch k = some st ∧ nonTerminal st) :
    ∀ fuel k, (pollAux fetch mw p fuel k).1 = none := by
  intro fuel
  induction fuel with
  | zero => intro k; rfl
  | succ fuel ih =>
    intro k
    by_cases hlt : k * p < mw
    · obtain ⟨st, hf, hnt⟩ := hall k
      rw [pollAux_step fetch mw p fuel k st hlt hf hnt]
      exact ih (k + 1)
    · rw [pollAux, if_neg hlt]

theorem pollAux_fail_at (fetch : Nat → Option GenieMessage) (mw p k : Nat)
    (hbefore : ∀ i, i < k → ∃ st, fetch i = some st ∧ nonTerminal st)
    (hfail : fetch k = none) (hk : k * p < mw) :
    ∀ fuel j, j ≤ k → k + 1 ≤ fuel + j → pollAux fetch mw p fuel j = (none, k) := by
  intro fuel
  induction fuel with
  | zero => intro j hj hf; omega
  | succ fuel ih =>
    intro j hj hf
    by_cases hjk : j = k
    · subst hjk
      exact pollAux_fetch_fail fetch mw p fuel j hk hfail
    · have hjlt : j < k := lt_of_le_of_ne hj hjk
      obtain ⟨st, hfj, hntj⟩ := hbefore j hjlt
      have hltj : j * p < mw :=
        lt_of_le_of_lt (Nat.mul_le_mul_right p (le_of_lt hjlt)) hk
      rw [pollAux_step fetch mw p fuel j st hltj hfj hntj]
      exact ih (j + 1) hjlt (by omega)

/-! ### Claim theorems -/

/-- Claim C9: for every non-empty message text containing no mention
markup, `_clean_message_text` is idempotent:
`clean(clean(s)) = clean(s)`. -/
theorem clean_message_text_idempotent (s : String) (_h1 : s ≠ "")
    (h2 : hasMention s = false) :
    cleanMessageText (cleanMessageText s) = cleanMessageText s := by
  have hml : removeMentionsL s.data = s.data := removeMentionsL_of_no_mention s.data h2
  have hstrip : hasMentionL (pyStripL s.data) = false := hasMentionL_pyStripL s.data h2
  have hdata : (cleanMessageText s).data = pyStripL s.data := by
    show (pyStrip (String.mk (removeMentionsL s.data))).data = pyStripL s.data
    rw [hml]
    rfl
  show pyStrip (String.mk (removeMentionsL (cleanMessageText s).data)) = cleanMessageText s
  rw [hdata, removeMentionsL_of_no_mention _ hstrip]
  show String.mk (pyStripL (pyStripL s.data)) = cleanMessageText s
  rw [pyStripL_idem]
  show String.mk (pyStripL s.data) = pyStrip (String.mk (removeMentionsL s.data))
  rw [hml]
  rfl

/-- Witness for C9 at the concrete input `"  hi  "`. -/
theorem clean_message_text_idempotent_witness :
    "  hi  " ≠ "" ∧ hasMention "  hi  " = false ∧
    cleanMessageText (cleanMessageText "  hi  ") = cleanMessageText "  hi  " :=
  ⟨by decide, by decide, clean_message_text_idempotent "  hi  " (by decide) (by decide)⟩

/-- Claim C2: with a fetch sequence RUNNING, RUNNING, COMPLETED,
`wait_for_response` returns the COMPLETED payload after exactly two
sleeps, for every `max_wait_time` strictly greater than the elapsed
simulated time of `2 * poll_interval` seconds. -/
theorem poll_until_complete_two_sleeps (fetch : Nat → Option GenieMessage)
    (mw p : Nat) (s0 s1 s2 : GenieMessage) (hp : 1 ≤ p) (hmw : 2 * p < mw)
    (h0 : fetch 0 = some s0) (h0s : s0.status = some "RUNNING")
    (h1 : fetch 1 = some s1) (h1s : s1.status = some "RUNNING")
    (h2 : fetch 2 = some s2) (h2s : s2.status = some "COMPLETED") :
    wait_for_response fetch mw p = (some s2, 2) := by
  obtain ⟨m, rfl⟩ : ∃ m, mw = m + 3 := ⟨mw - 3, by omega⟩
  have hnt0 : nonTerminal s0 :=
    ⟨by rw [h0s]; decide, by rw [h0s]; decide, by rw [h0s]; decide⟩
  have hnt1 : nonTerminal s1 :=
    ⟨by rw [h1s]; decide, by rw [h1s]; decide, by rw [h1s]; decide⟩
  unfold wait_for_response
  rw [pollAux_step fetch (m + 3) p (m + 3) 0 s0 (by omega) h0 hnt0]
  rw [show m + 3 = m + 2 + 1 by omega]
  rw [pollAux_step fetch (m + 2 + 1 + 0) p (m + 2) 1 s1 (by omega) h1 hnt1]
  rw [show m + 2 = m + 1 + 1 by omega]
  rw [pollAux_completed fetch (m + 1 + 1 + 1 + 0) p (m + 1) 2 s2 (by omega) h2 h2s]

/-- Witness for C2: three-element fetch sequence, `poll_interval = 1`,
`max_wait_time = 3`. -/
theorem poll_until_complete_two_sleeps_witness :
    wait_for_response
      (fun n => if n = 2 then some { status := some "COMPLETED" }
                else some { status := some "RUNNING" }) 3 1 =
      (some { status := some "COMPLETED" }, 2) :=
  poll_until_complete_two_sleeps _ 3 1 { status := some "RUNNING" }
    { status := some "RUNNING" } { status := some "COMPLETED" } (by decide) (by decide)
    (by decide) (by decide) (by decide) (by decide) (by decide) (by decide)

/-- Claim C3: when no fetch ever yields a terminal status,
`wait_for_response` returns the no-result outcome `None` - never a
COMPLETED-shaped payload. -/
theorem poll_timeout_returns_none (fetch : Nat → Option GenieMessage)
    (mw p : Nat) (_hp : 1 ≤ p)
    (hall : ∀ k, ∃ st, fetch k = some st ∧ nonTerminal st) :
    (wait_for_response fetch mw p).1 = none :=
  pollAux_none_of_all_nonterminal fetch mw p hall (mw + 1) 0

/-- Witness for C3 at `max_wait_time = 1`, `poll_interval = 1`, with an
always-RUNNING fetch. -/
theorem poll_timeout_returns_none_witness :
    (wait_for_response (fun _ => some { status := some "RUNNING" }) 1 1).1 = none :=
  poll_timeout_returns_none _ 1 1 (by decide)
    (fun _ => ⟨{ status := some "RUNNING" }, rfl, by decide, by decide, by decide⟩)

/-- Claim C10: a single mid-poll fetch failure (status fetch returning
`None`) makes `wait_for_response` return the no-result outcome at once,
after exactly the sleeps already performed, without retrying and without
waiting out the remaining budget - indistinguishable to the caller from
the timeout outcome. -/
theorem poll_fetch_failure_immediate (fetch : Nat → Option GenieMessage)
    (mw p k : Nat) (hp : 1 ≤ p) (hk : k * p < mw)
    (hbefore : ∀ i, i < k → ∃ st, fetch i = some st ∧ nonTerminal st)
    (hfail : fetch k = none) :
    wait_for_response fetch mw p = (none, k) := by
  have hkle : k ≤ k * p := Nat.le_mul_of_pos_right k hp
  exact pollAux_fail_at fetch mw p k hbefore hfail hk (mw + 1) 0 (by omega) (by omega)

/-- Witness for C10: first fetch RUNNING, second fetch fails, well
within `max_wait_time = 9`. -/
theorem poll_fetch_failure_immediate_witness :
    wait_for_response
      (fun n => if n = 0 then some { status := some "RUNNING" } else none) 9 1 =
      (none, 1) :=
  poll_fetch_failure_immediate _ 9 1 1 (by decide) (by decide)
    (fun i hi => by
      have hz : i = 0 := by omega
      subst hz
      exact ⟨{ status := some "RUNNING" }, rfl, by decide, by decide, by decide⟩)
    (by decide)

/-- Claim C6: a feedback interaction with an unknown message identifier
makes no backend `send_message_feedback` call and replaces the prompt
with the feedback-unavailable notice; and no feedback interaction ever
removes (or otherwise changes) the stored PendingAnswer map. -/
theorem feedback_unknown_id_no_backend (st : BotState) (msg_ts : Option String)
    (rating : String) (feedbackOk : String → String → String → Bool) :
    (handle_feedback st msg_ts rating feedbackOk).state = st ∧
    (msg_ts.bind (fun ts => st.message_feedback_map.lookup ts) = none →
      (handle_feedback st msg_ts rating feedbackOk).backendCalls = [] ∧
      (handle_feedback st msg_ts rating feedbackOk).update = some .unavailable) := by
  rcases h : msg_ts.bind (fun ts => st.message_feedback_map.lookup ts) with _ | ⟨cid, mid⟩
  · constructor
    · simp [handle_feedback, h]
    · intro _
      constructor
      · simp [handle_feedback, h]
      · simp [handle_feedback, h]
  · constructor
    · simp [handle_feedback, h]
    · intro hc
      exact absurd hc (by simp)

/-- Witness for C6: empty map, unknown message id `"123"`. -/
theorem feedback_unknown_id_no_backend_witness :
    (handle_feedback {} (some "123") "positive" (fun _ _ _ => true)).backendCalls = [] ∧
    (handle_feedback {} (some "123") "positive" (fun _ _ _ => true)).update =
      some FeedbackUpdate.unavailable :=
  (feedback_unknown_id_no_backend {} (some "123") "positive" (fun _ _ _ => true)).2 rfl

/-- Claim C7, counterexample: with a raising "working"-indicator send
(`typingOk = false`) on a normal message, the backend is NOT queried and
the top-level handler answers with the apology instead - refuting "its
failure does not abort the flow". -/
theorem working_indicator_failure_cex :
    (handle_message {} { text := "hello" } (fun _ _ => { success := true })
      { typingOk := false }).backendCalled = false ∧
    (handle_message {} { text := "hello" } (fun _ _ => { success := true })
      { typingOk := false }).apologized = true := by
  constructor <;> decide

/-- Claim C7, amended: the "working" indicator send is NOT best-effort:
when it raises, the exception reaches the handler's top-level `except`,
which sends a generic apology; the backend is never queried, nothing
else is sent, and both maps are left unchanged. -/
theorem working_indicator_failure_aborts (st : BotState) (ev : SlackEvent)
    (ask : String → Option String → AskResult) (sb : SendBehavior)
    (hbot : ev.bot_id = none) (hne : cleanMessageText ev.text ≠ "")
    (htyp : sb.typingOk = false) :
    (handle_message st ev ask sb).backendCalled = false ∧
    (handle_message st ev ask sb).apologized = true ∧
    (handle_message st ev ask sb).state = st ∧
    (handle_message st ev ask sb).sent = [] := by
  unfold handle_message
  rw [hbot]
  simp only [Option.isSome_none, Bool.false_eq_true, if_false, if_neg hne, htyp]
  exact ⟨rfl, rfl, rfl, rfl⟩

/-- Witness for the amended C7. -/
theorem working_indicator_failure_aborts_witness :
    (handle_message {} { text := "hello" } (fun _ _ => {}) { typingOk := false }).state =
      ({} : BotState) :=
  (working_indicator_failure_aborts {} { text := "hello" } (fun _ _ => {})
    { typingOk := false } rfl (by decide) rfl).2.2.1

/-- Claim C8: a message whose text is empty after mention stripping gets
the prompt-for-input reply and nothing else: no backend call, and both
the thread-to-conversation map and the feedback map are unchanged. -/
theorem empty_message_prompt_and_stop (st : BotState) (ev : SlackEvent)
    (ask : String → Option String → AskResult) (sb : SendBehavior)
    (hbot : ev.bot_id = none) (hempty : cleanMessageText ev.text = "") :
    (handle_message st ev ask sb).state = st ∧
    (handle_message st ev ask sb).backendCalled = false ∧
    (sb.sayPromptOk = true → (handle_message st ev ask sb).sent = [prompt_message]) := by
  unfold handle_message
  rw [hbot]
  simp only [Option.isSome_none, Bool.false_eq_true, if_false, hempty, if_pos rfl]
  by_cases hp : sb.sayPromptOk
  · simp [hp]
  · simp [hp]

/-- Witness for C8: a bare-mention message cleans to the empty string. -/
theorem empty_message_prompt_and_stop_witness :
    (handle_message {} { text := "<@U123ABC> " } (fun _ _ => {}) {}).state =
      ({} : BotState) ∧
    (handle_message {} { text := "<@U123ABC> " } (fun _ _ => {}) {}).backendCalled =
      false ∧
    (handle_message {} { text := "<@U123ABC> " } (fun _ _ => {}) {}).sent =
      [prompt_message] := by
  have h := empty_message_prompt_and_stop {} { text := "<@U123ABC> " }
    (fun _ _ => {}) {} rfl (by decide)
  exact ⟨h.1, h.2.1, h.2.2 rfl⟩

theorem lookup_filter_ne {α : Type} (m : List (String × α)) (k k' : String)
    (h : k' ≠ k) : (m.filter (fun p => !(p.1 == k))).lookup k' = m.lookup k' := by
  induction m with
  | nil => rfl
  | cons a tl ih =>
    obtain ⟨ka, va⟩ := a
    by_cases hk : ka = k
    · subst hk
      have hne : (k' == ka) = false := by simp [h]
      simp [List.filter_cons, List.lookup, hne, ih]
    · by_cases hk' : k' = ka
      · subst hk'
        simp [List.filter_cons, List.lookup, hk]
      · have hne : (k' == ka) = false := by simp [hk']
        simp [List.filter_cons, List.lookup, hne, hk, ih]

theorem lookup_mapSet {α : Type} (m : List (String × α)) (k k' : String) (v : α) :
    (mapSet m k v).lookup k' = if k' = k then some v else m.lookup k' := by
  unfold mapSet
  by_cases h : k' = k
  · subst h
    simp [List.lookup]
  · have hne : (k' == k) = false := by simp [h]
    simp [List.lookup, hne, h, lookup_filter_ne m k k' h]

theorem historyOf_mapSet (st : EndpointState) (k k' : String) (v : List Turn) :
    historyOf { conversation_history := mapSet st.conversation_history k v } k' =
      if k' = k then v else historyOf st k' := by
  unfold historyOf
  rw [lookup_mapSet]
  by_cases h : k' = k
  · simp [h]
  · simp [h]

theorem endpoint_state_cases (st : EndpointState) (ev : SlackEvent)
    (ask : String → List Turn → EndpointResult) (sb : EndpointSendBehavior) :
    (endpoint_handle_message st ev ask sb).state = st ∨
    ((ask (cleanMessageText ev.text) (historyOf st ev.thread_ts)).success = true ∧
     (endpoint_handle_message st ev ask sb).state =
       { conversation_history := mapSet st.conversation_history ev.thread_ts
           (historyOf st ev.thread_ts ++
             [{ role := "user", content := cleanMessageText ev.text },
              { role := "assistant", content :=
                (ask (cleanMessageText ev.text) (historyOf st ev.thread_ts)).response.getD "" }]) }) := by
  unfold endpoint_handle_message
  by_cases h1 : ev.bot_id.isSome
  · left; simp [h1]
  · simp only [h1, Bool.false_eq_true, if_false]
    by_cases h2 : cleanMessageText ev.text = ""
    · simp only [h2, if_pos rfl]
      by_cases h3 : sb.sayPromptOk <;> simp [h3]
    · simp only [if_neg h2]
      by_cases h4 : sb.typingOk = false
      · simp [h4]
      · simp only [h4, Bool.false_eq_true, if_false]
        by_cases h5 : (ask (cleanMessageText ev.text) (historyOf st ev.thread_ts)).success
        · right
          refine ⟨h5, ?_⟩
          simp only [h5, if_pos rfl]
          by_cases h6 : sb.sayAnswerOk = false <;> simp [h6]
        · left
          simp only [Bool.not_eq_true] at h5
          simp only [h5, Bool.false_eq_true, if_false]
          by_cases h6 : sb.sayAnswerOk = false <;> simp [h6]

theorem endpoint_state_success (st : EndpointState) (ev : SlackEvent)
    (ask : String → List Turn → EndpointResult) (sb : EndpointSendBehavior)
    (hbot : ev.bot_id = none) (hne : cleanMessageText ev.text ≠ "")
    (htyp : sb.typingOk = true)
    (hsucc : (ask (cleanMessageText ev.text) (historyOf st ev.thread_ts)).success = true) :
    (endpoint_handle_message st ev ask sb).state =
      { conversation_history := mapSet st.conversation_history ev.thread_ts
          (historyOf st ev.thread_ts ++
            [{ role := "user", content := cleanMessageText ev.text },
             { role := "assistant", content :=
               (ask (cleanMessageText ev.text) (historyOf st ev.thread_ts)).response.getD "" }]) } := by
  unfold endpoint_handle_message
  rw [hbot]
  simp only [Option.isSome_none, Bool.false_eq_true, if_false, if_neg hne]
  rw [htyp]
  simp only [Bool.true_eq_false, if_false, hsucc, if_pos rfl]
  by_cases h6 : sb.sayAnswerOk = false <;> simp [h6]

/-- Claim C5: in the endpoint (stateless-backend) variant, a successful
exchange (a non-bot message with non-empty cleaned text, a delivered
working indicator and a success result) appends EXACTLY the pair
user-turn-then-assistant-turn to its thread's stored history and leaves
every other thread untouched; every change to any history is exactly
that two-turn append; a failed exchange leaves the whole store
untouched; and every history's length keeps its parity, so histories
(which start empty) always have even length, growing by exactly 2 per
successful exchange. -/
theorem endpoint_history_two_turns (st : EndpointState) (ev : SlackEvent)
    (ask : String → List Turn → EndpointResult) (sb : EndpointSendBehavior) :
    (∀ ts, historyOf (endpoint_handle_message st ev ask sb).state ts = historyOf st ts ∨
      historyOf (endpoint_handle_message st ev ask sb).state ts =
        historyOf st ts ++
          [{ role := "user", content := cleanMessageText ev.text },
           { role := "assistant", content :=
             (ask (cleanMessageText ev.text) (historyOf st ev.thread_ts)).response.getD "" }]) ∧
    ((ask (cleanMessageText ev.text) (historyOf st ev.thread_ts)).success = false →
      (endpoint_handle_message st ev ask sb).state = st) ∧
    (∀ ts, (historyOf (endpoint_handle_message st ev ask sb).state ts).length % 2 =
      (historyOf st ts).length % 2) ∧
    (ev.bot_id = none → cleanMessageText ev.text ≠ "" → sb.typingOk = true →
      (ask (cleanMessageText ev.text) (historyOf st ev.thread_ts)).success = true →
      (historyOf (endpoint_handle_message st ev ask sb).state ev.thread_ts =
        historyOf st ev.thread_ts ++
          [{ role := "user", content := cleanMessageText ev.text },
           { role := "assistant", content :=
             (ask (cleanMessageText ev.text) (historyOf st ev.thread_ts)).response.getD "" }] ∧
       ∀ ts, ts ≠ ev.thread_ts →
         historyOf (endpoint_handle_message st ev ask sb).state ts = historyOf st ts)) := by
  have hmain : (∀ ts, historyOf (endpoint_handle_message st ev ask sb).state ts =
        historyOf st ts ∨
      historyOf (endpoint_handle_message st ev ask sb).state ts =
        historyOf st ts ++
          [{ role := "user", content := cleanMessageText ev.text },
           { role := "assistant", content :=
             (ask (cleanMessageText ev.text) (historyOf st ev.thread_ts)).response.getD "" }]) ∧
      ((ask (cleanMessageText ev.text) (historyOf st ev.thread_ts)).success = false →
        (endpoint_handle_message st ev ask sb).state = st) ∧
      (∀ ts, (historyOf (endpoint_handle_message st ev ask sb).state ts).length % 2 =
        (historyOf st ts).length % 2) := by
    rcases endpoint_state_cases st ev ask sb with hsame | ⟨hsucc, hupd⟩
    · refine ⟨fun ts => Or.inl (by rw [hsame]), fun _ => hsame, fun ts => by rw [hsame]⟩
    · have hlook : ∀ ts, historyOf (endpoint_handle_message st ev ask sb).state ts =
          if ts = ev.thread_ts then
            historyOf st ev.thread_ts ++
              [{ role := "user", content := cleanMessageText ev.text },
               { role := "assistant", content :=
                 (ask (cleanMessageText ev.text) (historyOf st ev.thread_ts)).response.getD "" }]
          else historyOf st ts := by
        intro ts
        rw [hupd, historyOf_mapSet]
      refine ⟨?_, ?_, ?_⟩
      · intro ts
        rw [hlook ts]
        by_cases hts : ts = ev.thread_ts
        · right; rw [if_pos hts, hts]
        · left; rw [if_neg hts]
      · intro hfail
        rw [hsucc] at hfail
        exact absurd hfail (by simp)
      · intro ts
        rw [hlook ts]
        by_cases hts : ts = ev.thread_ts
        · rw [if_pos hts, hts, List.length_append]
          simp only [List.length_cons, List.length_nil]
          omega
        · rw [if_neg hts]
  refine ⟨hmain.1, hmain.2.1, hmain.2.2, ?_⟩
  intro hbot hne htyp hsucc
  have hst := endpoint_state_success st ev ask sb hbot hne htyp hsucc
  constructor
  · rw [hst, historyOf_mapSet, if_pos rfl]
  · intro ts hts
    rw [hst, historyOf_mapSet, if_neg hts]

/-- Witness for C5: a concrete successful exchange appends exactly the
user turn and the assistant turn to its thread's history, and a
concrete failing exchange leaves the store untouched. -/
theorem endpoint_history_two_turns_witness :
    historyOf (endpoint_handle_message {} { text := "hi" }
        (fun _ _ => { success := true, response := some "yo" }) {}).state "" =
      [{ role := "user", content := "hi" }, { role := "assistant", content := "yo" }] ∧
    (endpoint_handle_message {} { text := "hi" } (fun _ _ => {}) {}).state =
      ({} : EndpointState) := by
  constructor
  · have h := ((endpoint_history_two_turns {} { text := "hi" }
      (fun _ _ => { success := true, response := some "yo" }) {}).2.2.2
      rfl (by decide) rfl rfl).1
    exact h.trans (by decide)
  · exact (endpoint_history_two_turns {} { text := "hi" } (fun _ _ => {}) {}).2.1 rfl


theorem responseStep_foldl (atts : List GenieAttachment) (acc : String) :
    List.foldl responseStep acc atts = acc ++ buildResponseTextSpec atts := by
  induction atts generalizing acc with
  | nil => simp [buildResponseTextSpec]
  | cons a atts ih =>
    rw [List.foldl_cons, ih]
    cases a with
    | text c =>
      by_cases hc : c = ""
      · subst hc
        simp [responseStep, buildResponseTextSpec]
      · simp [responseStep, buildResponseTextSpec, hc, String.append_assoc]
    | query d sid =>
      by_cases hd : d = ""
      · subst hd
        simp [responseStep, buildResponseTextSpec]
      · simp [responseStep, buildResponseTextSpec, hd, String.append_assoc]
    | chart t u => simp [responseStep, buildResponseTextSpec]
    | table rows => simp [responseStep, buildResponseTextSpec]
    | other => simp [responseStep, buildResponseTextSpec]

/-- The source's accumulation loop equals the (amended) spec-side
concatenation. -/
theorem buildResponseText_eq_spec (atts : List GenieAttachment) :
    buildResponseText atts = buildResponseTextSpec atts := by
  unfold buildResponseText
  rw [responseStep_foldl]
  simp

/-- Claim C1, counterexample: an empty-content text attachment between
two nonempty ones yields no blank line in the code's display text, while
the spec's literal "every text-kind attachment, each followed by a blank
line" inserts one: "A\n\nB" versus "A\n\n\n\nB". -/
theorem extract_answer_blank_line_cex :
    (extract_result blankLinePayload none none (fun _ => none)).response ≠
      extract_answer_spec_lit blankLinePayload := by
  decide

/-- Claim C1, amended: on a COMPLETED payload the display text is the
concatenation, in encounter order, of every NONEMPTY text-attachment
content and every NONEMPTY query-attachment description, each followed
by a blank line, trimmed; when that concatenation trims to empty it
falls back to the payload's `content`, defaulting to the
"No response generated" placeholder; in particular
`[text "A", query "B"]` yields "A\n\nB" and a bare `content = "raw"`
yields "raw". -/
theorem extract_answer_text_amended (resp : GenieMessage)
    (cid mid : Option String) (fetchStatement : String → Option ResultData)
    (hst : resp.status = some "COMPLETED") :
    (extract_result resp cid mid fetchStatement).response =
      (if pyStrip (buildResponseTextSpec resp.attachments) = ""
       then pyStrip (resp.content.getD "No response generated")
       else pyStrip (buildResponseTextSpec resp.attachments)) ∧
    (extract_result examplePayloadAB none none (fun _ => none)).response = "A\n\nB" ∧
    (extract_result examplePayloadRaw none none (fun _ => none)).response = "raw" := by
  refine ⟨?_, by decide, by decide⟩
  unfold extract_result
  rw [if_pos hst]
  show extract_response_text resp = _
  unfold extract_response_text
  rw [buildResponseText_eq_spec]
  show pyStrip (if pyStrip (buildResponseTextSpec resp.attachments) = ""
      then resp.content.getD "No response generated"
      else buildResponseTextSpec resp.attachments) = _
  by_cases h : pyStrip (buildResponseTextSpec resp.attachments) = ""
  · rw [if_pos h, if_pos h]
  · rw [if_neg h, if_neg h]

/-- Witness for the amended C1 at the spec's own example payload. -/
theorem extract_answer_text_amended_witness :
    (extract_result examplePayloadAB none none (fun _ => none)).response = "A\n\nB" :=
  (extract_answer_text_amended examplePayloadAB none none (fun _ => none) rfl).2.1

theorem pyStrip_idem (s : String) : pyStrip (pyStrip s) = pyStrip s := by
  show String.mk (pyStripL (pyStripL s.data)) = String.mk (pyStripL s.data)
  rw [pyStripL_idem]

theorem pyStrip_pyRjust (core : String) (w : Nat) (hcore : pyStrip core = core) :
    pyStrip (pyRjust core w) = core := by
  show String.mk (pyStripL (List.replicate (w - core.data.length) ' ' ++ core.data)) = core
  rw [pyStripL_spaces_append]
  exact hcore

theorem pyStrip_pyLjust (core : String) (w : Nat) (hcore : pyStrip core = core) :
    pyStrip (pyLjust core w) = core := by
  show String.mk (pyStripL (core.data ++ List.replicate (w - core.data.length) ' ')) = core
  rw [pyStripL_append_spaces]
  exact hcore

theorem pyRjust_length (s : String) (w : Nat) (h : s.data.length ≤ w) :
    (pyRjust s w).data.length = w := by
  show (List.replicate (w - s.data.length) ' ' ++ s.data).length = w
  rw [List.length_append, List.length_replicate]
  omega

theorem pyLjust_length (s : String) (w : Nat) (h : s.data.length ≤ w) :
    (pyLjust s w).data.length = w := by
  show (s.data ++ List.replicate (w - s.data.length) ' ').length = w
  rw [List.length_append, List.length_replicate]
  omega

theorem renderCell_core_length (v : Option String) (w : Nat) :
    (pyStrip (pySlice (cellStr v) w)).data.length ≤ w := by
  show (pyStripL ((cellStr v).data.take w)).length ≤ w
  calc (pyStripL ((cellStr v).data.take w)).length
      ≤ ((cellStr v).data.take w).length := length_pyStripL_le _
    _ ≤ w := by rw [List.length_take]; omega

theorem renderCell_spec (v : Option String) (w : Nat) (b : Bool) :
    (renderCell v w b).data.length = w ∧
    pyStrip (renderCell v w b) = pyStrip (pySlice (cellStr v) w) ∧
    ((b && is_numeric_cell v) = true →
      renderCell v w b = pyRjust (pyStrip (pySlice (cellStr v) w)) w) ∧
    ((b && is_numeric_cell v) = false →
      renderCell v w b = pyLjust (pyStrip (pySlice (cellStr v) w)) w) := by
  have hcore : pyStrip (pyStrip (pySlice (cellStr v) w)) = pyStrip (pySlice (cellStr v) w) :=
    pyStrip_idem _
  have hlen := renderCell_core_length v w
  show ((if b && is_numeric_cell v then pyRjust (pyStrip (pySlice (cellStr v) w)) w
      else pyLjust (pyStrip (pySlice (cellStr v) w)) w).data.length = w) ∧ _
  by_cases hb : (b && is_numeric_cell v) = true
  · rw [if_pos hb]
    refine ⟨pyRjust_length _ w hlen, ?_, fun _ => ?_, fun hc => ?_⟩
    · show pyStrip (renderCell v w b) = _
      unfold renderCell
      rw [if_pos hb]
      exact pyStrip_pyRjust _ w hcore
    · show renderCell v w b = _
      unfold renderCell
      rw [if_pos hb]
    · rw [hb] at hc
      exact absurd hc (by simp)
  · rw [if_neg hb]
    rw [Bool.not_eq_true] at hb
    refine ⟨pyLjust_length _ w hlen, ?_, fun hc => ?_, fun _ => ?_⟩
    · show pyStrip (renderCell v w b) = _
      unfold renderCell
      rw [if_neg (by rw [hb]; simp)]
      exact pyStrip_pyLjust _ w hcore
    · rw [hb] at hc
      exact absurd hc (by simp)
    · show renderCell v w b = _
      unfold renderCell
      rw [if_neg (by rw [hb]; simp)]

theorem isRightAligned_pyRjust (core : String) (w : Nat)
    (hcore : pyStrip core = core) (hlen : core.data.length ≤ w) :
    isRightAligned (pyRjust core w) := by
  unfold isRightAligned
  rw [pyStrip_pyRjust core w hcore, pyRjust_length core w hlen]

theorem isLeftAligned_pyLjust (core : String) (w : Nat)
    (hcore : pyStrip core = core) (hlen : core.data.length ≤ w) :
    isLeftAligned (pyLjust core w) := by
  unfold isLeftAligned
  rw [pyStrip_pyLjust core w hcore, pyLjust_length core w hlen]

theorem pyJoin_cons_cons (sep a b : String) (l : List String) :
    pyJoin sep (a :: b :: l) = a ++ sep ++ pyJoin sep (b :: l) := rfl

theorem format_data_array_decomp (names : List String)
    (rows : List (List (Option String))) (hrows : rows ≠ []) :
    format_data_array names rows =
      tableHeaderLine names rows ++ "\n" ++ tableSepLine names rows ++ "\n" ++
        pyJoin "\n" (rows.map (tableDataLine names rows)) := by
  obtain ⟨r, rs, rfl⟩ : ∃ r rs, rows = r :: rs := by
    cases rows with
    | nil => exact absurd rfl hrows
    | cons r rs => exact ⟨r, rs, rfl⟩
  show pyJoin "\n" (tableHeaderLine names (r :: rs) :: tableSepLine names (r :: rs) ::
    (r :: rs).map (tableDataLine names (r :: rs))) = _
  rw [List.map_cons, pyJoin_cons_cons, pyJoin_cons_cons]
  simp [String.append_assoc]

/-- Claim C4, counterexample: a 35-character cell under a one-character
header renders with 30 visible characters (the column-width cap), not
at most 28: the claim's "truncated to at most 28 visible characters
plus 2 padding" is false. -/
theorem table_cell_30_visible_cex :
    (pyStrip (renderCell (some (String.mk (List.replicate 35 'a')))
        (colWidth ["h"] [[some (String.mk (List.replicate 35 'a'))]] 0)
        (colIsNumeric [[some (String.mk (List.replicate 35 'a'))]] 0))).data.length = 30 ∧
    ¬ (pyStrip (renderCell (some (String.mk (List.replicate 35 'a')))
        (colWidth ["h"] [[some (String.mk (List.replicate 35 'a'))]] 0)
        (colIsNumeric [[some (String.mk (List.replicate 35 'a'))]] 0))).data.length ≤ 28 ∧
    format_data_array ["h"] [[some (String.mk (List.replicate 35 'a'))]] =
      "              h               \n──────────────────────────────\naaaaaaaaaaaaaaaaaaaaaaaaaaaaaa" := by
  refine ⟨by decide, by decide, by decide⟩

/-- Claim C4 (amended): for every non-empty tabular result the rendered
table right-aligns the cells of columns whose every non-null cell
parses as a number (per-cell: a null cell is still padded flush left)
and left-aligns all other cells; every rendered cell is exactly the
column width, which caps at 30, so a cell shows at most 30 (not 28)
visible characters; the output is header, separator, then one line per
row of width-padded cells; and `_send_query_results` displays only the
first 10 rows, appending a "Showing 10 of M rows" note carrying the
total row count whenever it exceeds 10. -/
theorem table_formatting_amended (names : List String)
    (rows : List (List (Option String))) (hrows : rows ≠ []) :
    (∀ i, colWidth names rows i ≤ 30) ∧
    (∀ r, r ∈ rows → ∀ i, i < names.length →
      ((renderCell (r.getD i none) (colWidth names rows i)
          (colIsNumeric rows i)).data.length = colWidth names rows i ∧
       (pyStrip (renderCell (r.getD i none) (colWidth names rows i)
          (colIsNumeric rows i))).data.length ≤ 30 ∧
       ((colIsNumeric rows i && is_numeric_cell (r.getD i none)) = true →
         isRightAligned (renderCell (r.getD i none) (colWidth names rows i)
           (colIsNumeric rows i))) ∧
       ((colIsNumeric rows i && is_numeric_cell (r.getD i none)) = false →
         isLeftAligned (renderCell (r.getD i none) (colWidth names rows i)
           (colIsNumeric rows i))))) ∧
    format_data_array names rows =
      tableHeaderLine names rows ++ "\n" ++ tableSepLine names rows ++ "\n" ++
        pyJoin "\n" (rows.map (tableDataLine names rows)) ∧
    (∀ rd : ResultData, rd.data.data_array ≠ [] →
      ((rd.data.row_count.getD rd.data.data_array.length > 10 →
        send_query_results_message rd = some
          ("*Query Results:*\n```\n" ++
            format_data_array (column_names_of rd.schema) (rd.data.data_array.take 10) ++
            "\n```" ++ "\n_Showing 10 of " ++
            toString (rd.data.row_count.getD rd.data.data_array.length) ++ " rows_")) ∧
       (rd.data.row_count.getD rd.data.data_array.length ≤ 10 →
        send_query_results_message rd = some
          ("*Query Results:*\n```\n" ++
            format_data_array (column_names_of rd.schema) (rd.data.data_array.take 10) ++
            "\n```")))) := by
  refine ⟨?_, ?_, format_data_array_decomp names rows hrows, ?_⟩
  · intro i
    unfold colWidth
    exact min_le_right _ _
  · intro r _ i _
    have hw : colWidth names rows i ≤ 30 := by unfold colWidth; exact min_le_right _ _
    obtain ⟨hlen, hstr, hright, hleft⟩ :=
      renderCell_spec (r.getD i none) (colWidth names rows i) (colIsNumeric rows i)
    refine ⟨hlen, ?_, ?_, ?_⟩
    · rw [hstr]
      exact le_trans (renderCell_core_length _ _) hw
    · intro hb
      rw [hright hb]
      exact isRightAligned_pyRjust _ _ (pyStrip_idem _) (renderCell_core_length _ _)
    · intro hb
      rw [hleft hb]
      exact isLeftAligned_pyLjust _ _ (pyStrip_idem _) (renderCell_core_length _ _)
  · intro rd hne
    constructor
    · intro h10
      show (if rd.data.data_array = [] then none else _) = _
      rw [if_neg hne]
      show some (if rd.data.row_count.getD rd.data.data_array.length > 10 then _ else _) = _
      rw [if_pos h10]
    · intro h10
      show (if rd.data.data_array = [] then none else _) = _
      rw [if_neg hne]
      show some (if rd.data.row_count.getD rd.data.data_array.length > 10 then _ else _) = _
      rw [if_neg (by omega)]

/-- Witness for the amended C4: 11 single-cell rows display 10 rows and
append the note carrying "11". -/
theorem table_formatting_amended_witness :
    send_query_results_message elevenRowResult =
      some ("*Query Results:*\n```\n" ++
        format_data_array (column_names_of elevenRowResult.schema)
          (elevenRowResult.data.data_array.take 10) ++
        "\n```" ++ "\n_Showing 10 of " ++ toString (11 : Nat) ++ " rows_") :=
  ((table_formatting_amended ["id"] [[some "1"]] (by decide)).2.2.2
    elevenRowResult (by decide)).1 (by decide)
